import Mathlib

/-!
Verification of the document engine of `qt_reader.py`: encoding-detection
caching (`get_file_encoding`), chapter indexing (`_extract_chapters`),
progress persistence (`_save_progress` / `_load_progress`), scroll clamping
(`_scroll_lines`), contrast-color computation (`calculate_luminance` /
`get_contrast_color`), background-color setting (`set_background_color`),
and config coercion of `line_scroll_lines` (`_load_variables_from_config`).

Python strings are modelled as `String` / `List Char`; `str.strip`,
`str.split`, `str.isdigit` and `int(_, base)` are modelled over ASCII
(the source never relies on non-ASCII digits or exotic whitespace).
Machine floats in the luminance formula are modelled over `ℝ`.
-/

namespace MoyuRead

/-- ASCII model of the whitespace set stripped by Python `str.strip()`
and matched by the regex class `\s`. -/
def pyIsSpace (c : Char) : Bool :=
  c = ' ' || c = '\t' || c = '\n' || c = '\r' || c = '\x0b' || c = '\x0c'

/-- Python `s.strip()`: remove leading and trailing whitespace. -/
def pyStrip (cs : List Char) : List Char :=
  ((cs.dropWhile pyIsSpace).reverse.dropWhile pyIsSpace).reverse

/-- Python `s.split('\n')`: split on every newline; `""` yields `[""]`. -/
def splitOnNl (cs : List Char) : List (List Char) :=
  match cs with
  | [] => [[]]
  | c :: rest =>
    if c = '\n' then [] :: splitOnNl rest
    else
      match splitOnNl rest with
      | g :: gs => (c :: g) :: gs
      | [] => [[c]]

/-- Python `s.isdigit()` (ASCII model): nonempty and all characters digits. -/
def pyIsDigitStr (cs : List Char) : Bool :=
  !cs.isEmpty && cs.all Char.isDigit

/-- Numeric value of an ASCII digit run (underscores skipped), MSD first. -/
def digitsVal (dv : Char → Option Nat) (base : Nat) (cs : List Char) : Nat :=
  cs.foldl (fun a c => match dv c with | some d => a * base + d | none => a) 0

/-- Tail of a Python integer-literal digit run: underscores may only
appear singly, between two digits. -/
def validDigitTail (isD : Char → Bool) : List Char → Bool
  | [] => true
  | ['_'] => false
  | '_' :: c :: rest => c ≠ '_' && isD c && validDigitTail isD rest
  | c :: rest => c ≠ '_' && isD c && validDigitTail isD rest

/-- A valid Python digit run: nonempty, starts with a digit, underscores
only between digits. -/
def validDigitRun (isD : Char → Bool) (cs : List Char) : Bool :=
  match cs with
  | [] => false
  | c :: rest => isD c && validDigitTail isD rest

/-- Hexadecimal digit value, both cases (regex and `int(_, 16)` digits):
the position of the lowercased character in `0123456789abcdef`. -/
def hexVal (c : Char) : Option Nat :=
  let idx := "0123456789abcdef".data.indexOf c.toLower
  if idx < 16 then some idx else none

/-- Decimal digit value (ASCII model of `\d` and of `int(_)` digits). -/
def decVal (c : Char) : Option Nat :=
  if c.isDigit then some (c.toNat - '0'.toNat) else none

/-- Python `int(s, base)` (ASCII model): strip whitespace, optional sign,
for base 16 an optional `0x`/`0X` marker, then a valid digit run. -/
def pyIntOfChars (dv : Char → Option Nat) (base : Nat) (hexMarker : Bool)
    (cs : List Char) : Option Int :=
  let s1 := pyStrip cs
  let (neg, s2) : Bool × List Char :=
    match s1 with
    | '-' :: r => (true, r)
    | '+' :: r => (false, r)
    | r => (false, r)
  let s3 :=
    if hexMarker then
      match s2 with
      | '0' :: 'x' :: r => r
      | '0' :: 'X' :: r => r
      | r => r
    else s2
  if validDigitRun (fun c => (dv c).isSome) s3 then
    some (if neg then -(digitsVal dv base s3 : Int) else (digitsVal dv base s3 : Int))
  else none

/-- Python `int(s, 16)` on a string. -/
def pyInt16 (cs : List Char) : Option Int :=
  pyIntOfChars hexVal 16 true cs

/-- Python `int(s)` (base 10) on a string. -/
def pyInt10 (cs : List Char) : Option Int :=
  pyIntOfChars decVal 10 false cs

/-- Integer value of an all-digits string (`int(s)` after `s.isdigit()`). -/
def decimalVal (cs : List Char) : Nat :=
  digitsVal decVal 10 cs

/-! ## ChapterIndexer: `ReaderWindow._extract_chapters` -/

/-- A detected chapter: `{'title': line, 'position': char_count,
'line_number': i}` in the source. -/
structure Chapter where
  title : String
  position : Nat
  line_number : Nat
deriving DecidableEq, Repr

/-- The CJK numerals of the regex class `[零一二三四五六七八九十百千]`. -/
def cjkNum (c : Char) : Bool :=
  c = '零' || c = '一' || c = '二' || c = '三' || c = '四' || c = '五' ||
  c = '六' || c = '七' || c = '八' || c = '九' || c = '十' || c = '百' || c = '千'

/-- The regex class `[零一二三四五六七八九十百千0-9]`. -/
def cjkNumOrDigit (c : Char) : Bool :=
  cjkNum c || c.isDigit

/-- The regex class `[\s\.、]` used after a leading numeral. -/
def sepCls (c : Char) : Bool :=
  pyIsSpace c || c = '.' || c = '、'

/-- Source `re.match(r'^第[零一二三四五六七八九十百千0-9]+(章|节)\s*.+', line)`:
`第`, a nonempty run of the class, the marker, then at least one more
character (`\s*.+` matches any nonempty remainder since `.` also matches
the whitespace that `\s*` may skip). -/
def matchDiMark (mark : Char) (cs : List Char) : Bool :=
  match cs with
  | c :: rest =>
    c = '第' &&
    !(rest.takeWhile cjkNumOrDigit).isEmpty &&
    (match rest.dropWhile cjkNumOrDigit with
     | m :: t => m = mark && !t.isEmpty
     | [] => false)
  | [] => false

/-- Source `re.match(r'^Chapter\s+\d+.+', line, re.IGNORECASE)`: the literal
`Chapter` case-insensitively, then whitespace, then a digit, then at
least one more character. -/
def matchChapterEn (cs : List Char) : Bool :=
  match cs with
  | c1 :: c2 :: c3 :: c4 :: c5 :: c6 :: c7 :: rest =>
    decide ([c1, c2, c3, c4, c5, c6, c7].map Char.toLower = "chapter".data) &&
    !(rest.takeWhile pyIsSpace).isEmpty &&
    (match rest.dropWhile pyIsSpace with
     | d :: t => d.isDigit && !t.isEmpty
     | [] => false)
  | _ => false

/-- Source `re.match(r'^\d+[\s\.、]+.+', line)`: a digit run, then a separator,
then at least one more character. -/
def matchNumSep (cs : List Char) : Bool :=
  !(cs.takeWhile Char.isDigit).isEmpty &&
  (match cs.dropWhile Char.isDigit with
   | c :: t => sepCls c && !t.isEmpty
   | [] => false)

/-- Source `re.match(r'^[零一二三四五六七八九十百千]+[\s、\.]+.+', line)`. -/
def matchCjkSep (cs : List Char) : Bool :=
  !(cs.takeWhile cjkNum).isEmpty &&
  (match cs.dropWhile cjkNum with
   | c :: t => sepCls c && !t.isEmpty
   | [] => false)

/-- The inner pattern loop of `_extract_chapters`: the line (already
stripped) is a heading when any of the five patterns matches. -/
def matchesChapterPattern (cs : List Char) : Bool :=
  matchDiMark '章' cs || matchDiMark '节' cs || matchChapterEn cs ||
  matchNumSep cs || matchCjkSep cs

/-- The line loop of `_extract_chapters`: strip each line, collect a
`Chapter` at the running `char_count` when a pattern matches, then
advance `char_count` by the STRIPPED line's length plus one (the source
rebinds `line = line.strip()` before `char_count += len(line) + 1`). -/
def extractFrom : List (List Char) → Nat → Nat → List Chapter
  | [], _, _ => []
  | l :: rest, i, char_count =>
    let s := pyStrip l
    let tail := extractFrom rest (i + 1) (char_count + s.length + 1)
    if !s.isEmpty && matchesChapterPattern s then
      { title := String.mk s, position := char_count, line_number := i } :: tail
    else tail

/-- Source `ReaderWindow._extract_chapters` on the loaded text: empty text yields
no chapters, otherwise scan the newline-split lines. -/
def extract_chapters (text : String) : List Chapter :=
  if text = "" then []
  else extractFrom (splitOnNl text.data) 0 0

theorem extractFrom_position_ge (lines : List (List Char)) :
    ∀ i char_count ch, ch ∈ extractFrom lines i char_count →
      char_count ≤ ch.position := by
  induction lines with
  | nil => intro i cc ch h; simp [extractFrom] at h
  | cons l rest ih =>
    intro i cc ch h
    simp only [extractFrom] at h
    by_cases hm : (!(pyStrip l).isEmpty && matchesChapterPattern (pyStrip l)) = true
    · rw [if_pos hm] at h
      rcases List.mem_cons.mp h with h1 | h2
      · subst h1; exact Nat.le_refl _
      · have := ih (i + 1) (cc + (pyStrip l).length + 1) ch h2
        omega
    · rw [if_neg hm] at h
      have := ih (i + 1) (cc + (pyStrip l).length + 1) ch h
      omega

theorem extractFrom_pairwise (lines : List (List Char)) :
    ∀ i char_count,
      (extractFrom lines i char_count).Pairwise
        (fun a b => a.position < b.position) := by
  induction lines with
  | nil => intro i cc; simp [extractFrom]
  | cons l rest ih =>
    intro i cc
    simp only [extractFrom]
    by_cases hm : (!(pyStrip l).isEmpty && matchesChapterPattern (pyStrip l)) = true
    · rw [if_pos hm]
      refine List.Pairwise.cons ?_ (ih _ _)
      intro b hb
      have := extractFrom_position_ge rest _ _ b hb
      simp only
      omega
    · rw [if_neg hm]; exact ih _ _

/-- Claim C7: for every input text the chapter list produced by
`_extract_chapters` has strictly increasing `position` values — no two
chapters share an offset and list order agrees with offset order. -/
theorem extract_chapters_positions_strict_mono (text : String) :
    (extract_chapters text).Pairwise (fun a b => a.position < b.position) := by
  unfold extract_chapters
  by_cases h : text = ""
  · rw [if_pos h]; simp
  · rw [if_neg h]; exact extractFrom_pairwise _ 0 0

/-- Claim C1 (failing evaluation): on the text `" x\n第一章 a"`, whose
first line carries a leading space, the indexer records `charOffset` 2
for the heading, yet the heading actually begins at offset 3 of the
original text (dropping 3 characters of the text reaches it): the running
offset uses stripped line lengths, so it is not a valid cursor position
into the original, unsplit text. -/
theorem extract_chapters_whitespace_drift :
    extract_chapters " x\n第一章 a" =
      [{ title := "第一章 a", position := 2, line_number := 1 }] ∧
    (" x\n第一章 a").data.drop 3 = "第一章 a".data ∧ 2 ≠ 3 := by
  refine ⟨by decide, by decide, by decide⟩

/-! ## EncodingCache + EncodingDetector: `get_file_encoding` -/

/-- A persisted cache entry `{'encoding': ..., 'mtime': ...}`. -/
structure EncEntry where
  encoding : String
  mtime : Int
deriving DecidableEq, Repr

/-- A file visible to `get_file_encoding`: its modification time and raw
bytes. -/
structure FileInfo where
  mtime : Int
  raw : List Nat
deriving DecidableEq, Repr

/-- Source `get_file_encoding`: the cache dict is a lookup function, the file
system `fs` maps a path to its `FileInfo` (or `none` for
`FileNotFoundError`), and `detect` models `chardet.detect` on the raw
bytes (`none` when chardet reports no encoding). Returns the encoding,
the cache as persisted afterwards, and whether detection ran (which is
also exactly when the file content was read). -/
def get_file_encoding (cache : String → Option EncEntry)
    (detect : List Nat → Option String) (fs : String → Option FileInfo)
    (file_path : String) : String × (String → Option EncEntry) × Bool :=
  match fs file_path with
  | none => ("utf-8", cache, false)
  | some info =>
    match cache file_path with
    | some e =>
      if e.mtime = info.mtime then (e.encoding, cache, false)
      else
        let encoding := (detect info.raw).getD "utf-8"
        (encoding,
         fun p => if p = file_path then
             some { encoding := encoding, mtime := info.mtime } else cache p,
         true)
    | none =>
      let encoding := (detect info.raw).getD "utf-8"
      (encoding,
       fun p => if p = file_path then
           some { encoding := encoding, mtime := info.mtime } else cache p,
       true)

/-- Claim C2: with the file present, (a) a cache entry whose stored mtime
equals the live mtime is returned with no detection and no cache change;
(b) an entry with a different mtime forces re-detection and is overwritten
with the new encoding and the current mtime; (c) a second call on the
persisted cache never detects again and returns the same encoding. -/
theorem get_file_encoding_cache (cache : String → Option EncEntry)
    (detect : List Nat → Option String) (fs : String → Option FileInfo)
    (file_path : String) (info : FileInfo)
    (hfs : fs file_path = some info) :
    (∀ e, cache file_path = some e → e.mtime = info.mtime →
       get_file_encoding cache detect fs file_path = (e.encoding, cache, false)) ∧
    (∀ e, cache file_path = some e → e.mtime ≠ info.mtime →
       get_file_encoding cache detect fs file_path =
         ((detect info.raw).getD "utf-8",
          fun p => if p = file_path then
              some { encoding := (detect info.raw).getD "utf-8",
                     mtime := info.mtime } else cache p,
          true)) ∧
    (get_file_encoding (get_file_encoding cache detect fs file_path).2.1
        detect fs file_path =
      ((get_file_encoding cache detect fs file_path).1,
       (get_file_encoding cache detect fs file_path).2.1, false)) := by
  refine ⟨?_, ?_, ?_⟩
  · intro e he hm
    simp [get_file_encoding, hfs, he, hm]
  · intro e he hm
    simp [get_file_encoding, hfs, he, hm]
  · simp only [get_file_encoding, hfs]
    cases hc : cache file_path with
    | none => simp [hc]
    | some e =>
      by_cases hm : e.mtime = info.mtime
      · simp [hc, hm]
      · simp [hc, hm]

/-- Witness for C2 at a concrete cache, detector and file system: a fresh
mtime hits the cache, a stale one re-detects and overwrites. -/
theorem get_file_encoding_cache_witness :
    (get_file_encoding
        (fun p => if p = "a.txt" then some { encoding := "gbk", mtime := 5 } else none)
        (fun _ => some "big5")
        (fun p => if p = "a.txt" then some { mtime := 5, raw := [1, 2, 3] } else none)
        "a.txt" =
      ("gbk",
       fun p => if p = "a.txt" then some { encoding := "gbk", mtime := 5 } else none,
       false)) ∧
    (get_file_encoding
        (fun p => if p = "a.txt" then some { encoding := "gbk", mtime := 4 } else none)
        (fun _ => some "big5")
        (fun p => if p = "a.txt" then some { mtime := 5, raw := [1, 2, 3] } else none)
        "a.txt" =
      ("big5",
       fun p => if p = "a.txt" then some { encoding := "big5", mtime := 5 }
         else if p = "a.txt" then some { encoding := "gbk", mtime := 4 } else none,
       true)) := by
  constructor
  · exact (get_file_encoding_cache _ _ _ "a.txt" { mtime := 5, raw := [1, 2, 3] }
      rfl).1 { encoding := "gbk", mtime := 5 } rfl rfl
  · exact (get_file_encoding_cache _ _ _ "a.txt" { mtime := 5, raw := [1, 2, 3] }
      rfl).2.1 { encoding := "gbk", mtime := 4 } rfl (by decide)

/-! ## Navigation clamping: `ReaderWindow._scroll_lines` -/

/-- Source `_scroll_lines(line_count)`: a zero request returns unchanged;
otherwise the new scrollbar value is `value + line_height * line_count`
clamped into `[minimum, maximum]` (the source computes
`max(scrollbar.minimum(), min(scrollbar.maximum(), new_value))` and the
scrollbar then reports that clamped value back). -/
def scroll_lines (minV maxV line_height value : Int) (line_count : Int) : Int :=
  if line_count = 0 then value
  else max minV (min maxV (value + line_height * line_count))

/-- Source `next_page`: scroll forward by `lines_per_scroll` lines. -/
def next_page (minV maxV line_height value lines_per_scroll : Int) : Int :=
  scroll_lines minV maxV line_height value lines_per_scroll

/-- Source `prev_page`: scroll backward by `lines_per_scroll` lines. -/
def prev_page (minV maxV line_height value lines_per_scroll : Int) : Int :=
  scroll_lines minV maxV line_height value (-lines_per_scroll)

/-- Claim C4: starting from any offset inside `[minV, maxV]`, `_scroll_lines`
with any requested line count — and hence `next_page` (advance) and
`prev_page` (retreat) with any configured magnitude — leaves the offset
inside `[minV, maxV]`. -/
theorem scroll_lines_clamped (minV maxV line_height value n lps : Int)
    (h1 : minV ≤ value) (h2 : value ≤ maxV) :
    (minV ≤ scroll_lines minV maxV line_height value n ∧
     scroll_lines minV maxV line_height value n ≤ maxV) ∧
    (minV ≤ next_page minV maxV line_height value lps ∧
     next_page minV maxV line_height value lps ≤ maxV) ∧
    (minV ≤ prev_page minV maxV line_height value lps ∧
     prev_page minV maxV line_height value lps ≤ maxV) := by
  unfold next_page prev_page scroll_lines
  simp only [max_def, min_def]
  split_ifs <;> omega

/-- Witness for C4 at concrete bounds, including a delta far beyond the
document extent. -/
theorem scroll_lines_clamped_witness :
    ((0 ≤ scroll_lines 0 100 7 50 1000000 ∧ scroll_lines 0 100 7 50 1000000 ≤ 100) ∧
     (0 ≤ next_page 0 100 7 50 1000000 ∧ next_page 0 100 7 50 1000000 ≤ 100) ∧
     (0 ≤ prev_page 0 100 7 50 1000000 ∧ prev_page 0 100 7 50 1000000 ≤ 100)) :=
  scroll_lines_clamped 0 100 7 50 1000000 1000000 (by decide) (by decide)

/-! ## Config coercion: `line_scroll_lines` in `_load_variables_from_config` -/

/-- A JSON value as stored in the configuration file. -/
inductive JsonVal where
  | jInt (n : Int)
  | jFloat (q : ℚ)
  | jStr (s : String)
  | jBool (b : Bool)
  | jNull
  | jArr
  | jObj
deriving DecidableEq

/-- Python `int(x)` on a JSON value: ints pass through, bools are 0/1,
floats truncate toward zero, strings parse in base 10; `None`, lists and
dicts raise (`none`). -/
def pyIntOfJson : JsonVal → Option Int
  | .jInt n => some n
  | .jBool b => some (if b then 1 else 0)
  | .jFloat q => some (if 0 ≤ q then ⌊q⌋ else ⌈q⌉)
  | .jStr s => pyInt10 s.data
  | .jNull => none
  | .jArr => none
  | .jObj => none

/-- The `line_scroll_lines` coercion in `_load_variables_from_config`:
`max(1, int(x))`, with `ValueError`/`TypeError` falling back to 4. -/
def coerce_line_scroll (v : JsonVal) : Int :=
  match pyIntOfJson v with
  | some n => max 1 n
  | none => 4

/-- Source `self.lines_per_scroll` after loading: `config.get("line_scroll_lines", 4)`
then the coercion. -/
def load_lines_per_scroll (stored : Option JsonVal) : Int :=
  coerce_line_scroll (stored.getD (.jInt 4))

/-- Claim C10 counterexample: a configured value of 0 — not a valid
positive integer — is coerced to 1, not to the default 4 as the claim
states. -/
theorem load_lines_per_scroll_zero_cex :
    load_lines_per_scroll (some (.jInt 0)) = 1 ∧ (1 : Int) ≠ 4 := by
  exact ⟨by decide, by decide⟩

/-- Claim C10 (amended): a configured value on which Python `int()` raises
(non-numeric strings, `None`, lists, dicts) is coerced to the default 4;
a numeric value is truncated to an integer and clamped below at 1 (so zero
and negative values become 1, not 4); a missing key defaults to 4; the
result is always a positive integer. -/
theorem load_lines_per_scroll_coercion (v : JsonVal) :
    (pyIntOfJson v = none → load_lines_per_scroll (some v) = 4) ∧
    (∀ n, pyIntOfJson v = some n → load_lines_per_scroll (some v) = max 1 n) ∧
    (∀ n, n ≤ 0 → pyIntOfJson v = some n → load_lines_per_scroll (some v) = 1) ∧
    load_lines_per_scroll none = 4 ∧
    1 ≤ load_lines_per_scroll (some v) := by
  refine ⟨?_, ?_, ?_, by decide, ?_⟩
  · intro h; simp [load_lines_per_scroll, coerce_line_scroll, h]
  · intro n h; simp [load_lines_per_scroll, coerce_line_scroll, h]
  · intro n hn h
    simp only [load_lines_per_scroll, Option.getD, coerce_line_scroll, h]
    omega
  · simp only [load_lines_per_scroll, Option.getD, coerce_line_scroll]
    cases h : pyIntOfJson v with
    | none => decide
    | some n => exact le_max_left 1 n

/-- Witness for C10 at concrete config values: a non-numeric string and
`None` coerce to 4, while `-3` coerces to 1. -/
theorem load_lines_per_scroll_coercion_witness :
    load_lines_per_scroll (some (.jStr "abc")) = 4 ∧
    load_lines_per_scroll (some .jNull) = 4 ∧
    load_lines_per_scroll (some (.jInt (-3))) = 1 := by
  refine ⟨(load_lines_per_scroll_coercion (.jStr "abc")).1 (by decide),
          (load_lines_per_scroll_coercion .jNull).1 (by decide),
          (load_lines_per_scroll_coercion (.jInt (-3))).2.2.1 (-3) (by decide) (by decide)⟩

/-! ## ContrastCalculator: `calculate_luminance` / `get_contrast_color` -/

/-- Python `s.lower()` (ASCII model). -/
def pyLower (s : String) : String :=
  String.mk (s.data.map Char.toLower)

/-- Source `color_hex[1:]` when the string starts with `#`, else unchanged. -/
def dropHash (cs : List Char) : List Char :=
  match cs with
  | '#' :: r => r
  | r => r

/-- The sRGB per-channel linearization of `calculate_luminance`: linear
below the 0.03928 knee, otherwise the 2.4-power law. Machine floats are
modelled over `ℝ`. -/
noncomputable def srgbLin (x : ℝ) : ℝ :=
  if x ≤ 0.03928 then x / 12.92 else ((x + 0.055) / 1.055) ^ (2.4 : ℝ)

/-- Source `calculate_luminance(color_hex)`: `"transparent"` (case-insensitively)
is 0.5; otherwise the three 2-character slices after an optional `#` are
parsed with `int(_, 16)` — any failure returns 0.5 — and the channels are
linearized and combined with weights 0.2126 / 0.7152 / 0.0722. -/
noncomputable def calculate_luminance (color_hex : String) : ℝ :=
  if pyLower color_hex = "transparent" then 0.5
  else
    let hex := dropHash color_hex.data
    match pyInt16 (hex.take 2), pyInt16 ((hex.drop 2).take 2),
        pyInt16 ((hex.drop 4).take 2) with
    | some ri, some gi, some bi =>
      0.2126 * srgbLin ((ri : ℝ) / 255) + 0.7152 * srgbLin ((gi : ℝ) / 255) +
        0.0722 * srgbLin ((bi : ℝ) / 255)
    | _, _, _ => 0.5

open Classical in
/-- Source `get_contrast_color(color_hex)`: black text exactly when the luminance
exceeds 0.5, white text otherwise. -/
noncomputable def get_contrast_color (color_hex : String) : String :=
  if calculate_luminance color_hex > 0.5 then "#000000" else "#FFFFFF"

theorem calculate_luminance_transparent :
    calculate_luminance "transparent" = 0.5 := by
  unfold calculate_luminance
  rw [if_pos (by decide)]

theorem calculate_luminance_black : calculate_luminance "#000000" = 0 := by
  unfold calculate_luminance
  rw [if_neg (by decide)]
  have h : pyInt16 (("000000".data).take 2) = some 0 := by decide
  have h2 : pyInt16 ((("000000".data).drop 2).take 2) = some 0 := by decide
  have h3 : pyInt16 ((("000000".data).drop 4).take 2) = some 0 := by decide
  simp only [show dropHash "#000000".data = "000000".data from rfl, h, h2, h3]
  have hz : srgbLin (((0 : Int) : ℝ) / 255) = 0 := by
    simp only [srgbLin, Int.cast_zero, zero_div]
    rw [if_pos (by norm_num)]
  rw [hz]; ring

theorem calculate_luminance_white : calculate_luminance "#FFFFFF" = 1 := by
  unfold calculate_luminance
  rw [if_neg (by decide)]
  have h : pyInt16 (("FFFFFF".data).take 2) = some 255 := by decide
  have h2 : pyInt16 ((("FFFFFF".data).drop 2).take 2) = some 255 := by decide
  have h3 : pyInt16 ((("FFFFFF".data).drop 4).take 2) = some 255 := by decide
  simp only [show dropHash "#FFFFFF".data = "FFFFFF".data from rfl, h, h2, h3]
  have ho : srgbLin (((255 : Int) : ℝ) / 255) = 1 := by
    have h255 : (((255 : Int) : ℝ) / 255) = 1 := by norm_num
    rw [h255]
    simp only [srgbLin]
    rw [if_neg (by norm_num)]
    rw [show ((1 : ℝ) + 0.055) / 1.055 = 1 by norm_num, Real.one_rpow]
  rw [ho]; ring

/-- Claim C5: `get_contrast_color` always returns exactly one of
`"#000000"` and `"#FFFFFF"`, returning black precisely when the relative
luminance is strictly greater than 0.5; in particular `"#000000"` yields
white, `"#FFFFFF"` yields black, and the transparent sentinel (luminance
exactly 0.5) yields white. -/
theorem get_contrast_color_spec (s : String) :
    ((get_contrast_color s = "#000000" ↔ calculate_luminance s > 0.5) ∧
     (get_contrast_color s = "#000000" ∨ get_contrast_color s = "#FFFFFF")) ∧
    get_contrast_color "#000000" = "#FFFFFF" ∧
    get_contrast_color "#FFFFFF" = "#000000" ∧
    get_contrast_color "transparent" = "#FFFFFF" := by
  refine ⟨⟨?_, ?_⟩, ?_, ?_, ?_⟩
  · unfold get_contrast_color
    by_cases h : calculate_luminance s > 0.5
    · rw [if_pos h]; simp [h]
    · rw [if_neg h]
      constructor
      · intro hc; exact absurd hc (by decide)
      · intro hl; exact absurd hl h
  · unfold get_contrast_color
    by_cases h : calculate_luminance s > 0.5
    · left; rw [if_pos h]
    · right; rw [if_neg h]
  · unfold get_contrast_color
    rw [calculate_luminance_black, if_neg (by norm_num)]
  · unfold get_contrast_color
    rw [calculate_luminance_white, if_pos (by norm_num)]
  · unfold get_contrast_color
    rw [calculate_luminance_transparent, if_neg (by norm_num)]

/-- Claim C8 counterexample: `"#FFFFFFF"` is malformed (seven hex digits,
wrong length), yet the luminance computation does not return the neutral
0.5 — the first six characters parse as white, luminance 1 — and the
contrast color is `"#000000"`, not `"#FFFFFF"`. -/
theorem calculate_luminance_overlong_cex :
    calculate_luminance "#FFFFFFF" = 1 ∧
    get_contrast_color "#FFFFFFF" = "#000000" ∧
    (1 : ℝ) ≠ 0.5 := by
  have hl : calculate_luminance "#FFFFFFF" = 1 := by
    unfold calculate_luminance
    rw [if_neg (by decide)]
    have h : pyInt16 (("FFFFFFF".data).take 2) = some 255 := by decide
    have h2 : pyInt16 ((("FFFFFFF".data).drop 2).take 2) = some 255 := by decide
    have h3 : pyInt16 ((("FFFFFFF".data).drop 4).take 2) = some 255 := by decide
    simp only [show dropHash "#FFFFFFF".data = "FFFFFFF".data from rfl, h, h2, h3]
    have ho : srgbLin (((255 : Int) : ℝ) / 255) = 1 := by
      have h255 : (((255 : Int) : ℝ) / 255) = 1 := by norm_num
      rw [h255]
      simp only [srgbLin]
      rw [if_neg (by norm_num)]
      rw [show ((1 : ℝ) + 0.055) / 1.055 = 1 by norm_num, Real.one_rpow]
    rw [ho]; ring
  refine ⟨hl, ?_, by norm_num⟩
  unfold get_contrast_color
  rw [hl, if_pos (by norm_num)]

/-- Claim C8 (amended): a color string for which any of the three
two-character slices after the optional `#` fails to parse as hexadecimal
(in particular too-short strings, and strings with a non-hex character
among the first six hex positions) yields the neutral luminance 0.5 and
hence white text; over-long strings, by contrast, are computed from their
first six hex characters. -/
theorem calculate_luminance_fail_soft (s : String)
    (h : pyInt16 ((dropHash s.data).take 2) = none ∨
         pyInt16 (((dropHash s.data).drop 2).take 2) = none ∨
         pyInt16 (((dropHash s.data).drop 4).take 2) = none) :
    calculate_luminance s = 0.5 ∧ get_contrast_color s = "#FFFFFF" := by
  have hl : calculate_luminance s = 0.5 := by
    unfold calculate_luminance
    by_cases ht : pyLower s = "transparent"
    · rw [if_pos ht]
    · rw [if_neg ht]
      rcases h with h1 | h2 | h3
      · simp only [h1]
      · cases hx : pyInt16 ((dropHash s.data).take 2) <;> simp [hx, h2]
      · cases hx : pyInt16 ((dropHash s.data).take 2) <;>
          cases hy : pyInt16 (((dropHash s.data).drop 2).take 2) <;>
            simp [hx, hy, h3]
  refine ⟨hl, ?_⟩
  unfold get_contrast_color
  rw [hl, if_neg (by norm_num)]

/-- Witness for the amended C8 at concrete malformed strings: a non-hex
pair and a too-short string both fail soft to luminance 0.5 / white. -/
theorem calculate_luminance_fail_soft_witness :
    (calculate_luminance "#zz0000" = 0.5 ∧
     get_contrast_color "#zz0000" = "#FFFFFF") ∧
    (calculate_luminance "#12" = 0.5 ∧
     get_contrast_color "#12" = "#FFFFFF") :=
  ⟨calculate_luminance_fail_soft "#zz0000" (Or.inl (by decide)),
   calculate_luminance_fail_soft "#12" (Or.inr (Or.inl (by decide)))⟩

/-! ## Session state: `ReaderWindow` fields touched by progress,
chapter-jump and color operations -/

/-- A JSON value found in the `reading_progress` map. -/
inductive PValue where
  | pInt (n : Int)
  | pStr (s : List Char)
  | pOther

/-- The configuration keys the modelled operations read or write; the
rest of the config dict rides along unchanged and is omitted. -/
structure Config where
  background_color : String
  font_color : String
  reading_progress : String → Option PValue

/-- The `ReaderWindow` session fields touched by `_save_progress`,
`_load_progress`, `jump_to_chapter`, `set_background_color`,
`set_font_color` and `auto_adjust_font_color`. `sidecar` is the content
of the `_memo.txt` file (`none` when absent) and `saved_configs` logs
each `save_config` call, most recent first. -/
structure ReaderState where
  file_path : String
  current_scroll_value : Int
  chapters : List Chapter
  background_color : String
  font_color : String
  auto_font_color : Bool
  config : Config
  sidecar : Option (List Char)
  saved_configs : List Config

/-- Source `save_config(config)`: persist the whole configuration. -/
def save_config (st : ReaderState) : ReaderState :=
  { st with saved_configs := st.config :: st.saved_configs }

/-- Source `ReaderWindow._save_progress`: write the offset to the sidecar file,
store it under the document path in `config['reading_progress']`, and
persist the config. -/
def save_progress (st : ReaderState) : ReaderState :=
  let st1 := { st with sidecar := some (toString st.current_scroll_value).data }
  let st2 := { st1 with config :=
    { st1.config with reading_progress := fun p =>
        if p = st1.file_path then some (.pInt st1.current_scroll_value)
        else st1.config.reading_progress p } }
  save_config st2

/-- The sidecar fallback of `_load_progress`: read the memo file's first
line, strip it, and when it is all digits adopt the value, promote it into
the config map and persist the config. -/
def load_from_sidecar (st : ReaderState) : ReaderState :=
  match st.sidecar with
  | none => st
  | some content =>
    let saved := pyStrip (content.takeWhile (· ≠ '\n'))
    if pyIsDigitStr saved then
      save_config
        { st with current_scroll_value := (decimalVal saved : Int),
                  config := { st.config with reading_progress := fun p =>
                    if p = st.file_path then some (.pInt (decimalVal saved : Int))
                    else st.config.reading_progress p } }
    else st

/-- Source `ReaderWindow._load_progress`: an `int` entry in the progress map wins;
a digit-string entry is converted; anything else falls back to the sidecar
file. -/
def load_progress (st : ReaderState) : ReaderState :=
  match st.config.reading_progress st.file_path with
  | some (.pInt n) => { st with current_scroll_value := n }
  | some (.pStr s) =>
    if pyIsDigitStr s then { st with current_scroll_value := (decimalVal s : Int) }
    else load_from_sidecar st
  | _ => load_from_sidecar st

/-- Claim C3: saving an offset then loading for the same path returns
exactly that offset; for a path with no entry in the progress map, loading
returns the sidecar integer when the sidecar exists (promoting it into the
config map and persisting), and leaves the initial default 0 when it does
not. -/
theorem save_load_progress_roundtrip (st : ReaderState) (offset : Int)
    (hoff : 0 ≤ offset) :
    (load_progress (save_progress
        { st with current_scroll_value := offset })).current_scroll_value = offset ∧
    (st.config.reading_progress st.file_path = none →
      (∀ content, st.sidecar = some content →
          pyIsDigitStr (pyStrip (content.takeWhile (· ≠ '\n'))) = true →
          (load_progress st).current_scroll_value =
              (decimalVal (pyStrip (content.takeWhile (· ≠ '\n'))) : Int) ∧
            (load_progress st).config.reading_progress st.file_path =
              some (.pInt (decimalVal (pyStrip (content.takeWhile (· ≠ '\n'))) : Int)) ∧
            (load_progress st).saved_configs =
              (load_progress st).config :: st.saved_configs) ∧
      (st.sidecar = none → st.current_scroll_value = 0 →
          (load_progress st).current_scroll_value = 0)) := by
  constructor
  · simp [load_progress, save_progress, save_config]
  · intro hmap
    constructor
    · intro content hside hdig
      simp only [ne_eq, decide_not] at hdig
      simp [load_progress, hmap, load_from_sidecar, hside, hdig, save_config]
    · intro hside h0
      simp [load_progress, hmap, load_from_sidecar, hside, h0]

/-- Witness for C3: a concrete round trip at offset 42, a concrete sidecar
fallback reading "17", and the default 0 with no sidecar. -/
theorem save_load_progress_roundtrip_witness :
    ((load_progress (save_progress
        { file_path := "novel.txt", current_scroll_value := 42, chapters := [],
          background_color := "transparent", font_color := "#E0E0E0",
          auto_font_color := true,
          config := { background_color := "transparent", font_color := "#E0E0E0",
                      reading_progress := fun _ => none },
          sidecar := none, saved_configs := [] })).current_scroll_value = 42) ∧
    ((load_progress
        { file_path := "novel.txt", current_scroll_value := 0, chapters := [],
          background_color := "transparent", font_color := "#E0E0E0",
          auto_font_color := true,
          config := { background_color := "transparent", font_color := "#E0E0E0",
                      reading_progress := fun _ => none },
          sidecar := some "17\n".data,
          saved_configs := [] }).current_scroll_value = (17 : Int)) ∧
    ((load_progress
        { file_path := "novel.txt", current_scroll_value := 0, chapters := [],
          background_color := "transparent", font_color := "#E0E0E0",
          auto_font_color := true,
          config := { background_color := "transparent", font_color := "#E0E0E0",
                      reading_progress := fun _ => none },
          sidecar := none, saved_configs := [] }).current_scroll_value = 0) := by
  refine ⟨?_, ?_, ?_⟩
  · exact (save_load_progress_roundtrip
      { file_path := "novel.txt", current_scroll_value := 0, chapters := [],
        background_color := "transparent", font_color := "#E0E0E0",
        auto_font_color := true,
        config := { background_color := "transparent", font_color := "#E0E0E0",
                    reading_progress := fun _ => none },
        sidecar := none, saved_configs := [] } 42 (by decide)).1
  · have h := ((save_load_progress_roundtrip
      { file_path := "novel.txt", current_scroll_value := 0, chapters := [],
        background_color := "transparent", font_color := "#E0E0E0",
        auto_font_color := true,
        config := { background_color := "transparent", font_color := "#E0E0E0",
                    reading_progress := fun _ => none },
        sidecar := some "17\n".data,
        saved_configs := [] } 0 (by decide)).2 rfl).1 "17\n".data rfl (by decide)
    exact h.1.trans (by decide)
  · exact ((save_load_progress_roundtrip
      { file_path := "novel.txt", current_scroll_value := 0, chapters := [],
        background_color := "transparent", font_color := "#E0E0E0",
        auto_font_color := true,
        config := { background_color := "transparent", font_color := "#E0E0E0",
                    reading_progress := fun _ => none },
        sidecar := none, saved_configs := [] } 0 (by decide)).2 rfl).2 rfl rfl

/-! ## Chapter jump: `ReaderWindow.jump_to_chapter` -/

/-- Source `jump_to_chapter(item)` after `index = self.catalog_list.row(item)`:
when `0 <= index < len(self.chapters)` the cursor is set to the chapter's
stored position, the scroll value is read back from the rendering surface
(modelled by `scrollFor`, mapping a cursor position to the resulting
scrollbar value) and `_save_progress` runs; otherwise the method simply
falls through — it raises nothing, returns `None`, and touches no state. -/
def jump_to_chapter (scrollFor : Nat → Int) (st : ReaderState)
    (index : Int) : ReaderState :=
  if h : 0 ≤ index ∧ index < (st.chapters.length : Int) then
    save_progress
      { st with current_scroll_value :=
          scrollFor (st.chapters.get ⟨index.toNat, by omega⟩).position }
  else st

/-- Modelled from the spec: the spec's `jumpToChapter(index)` is required
to FAIL "with an out-of-range condition ... reported to the caller" when
`index` is outside `[0, len(chapters))`; the error channel, absent from
the source, is modelled as `Except`. -/
def jumpToChapterSpec (scrollFor : Nat → Int) (st : ReaderState)
    (index : Int) : Except Unit ReaderState :=
  if h : 0 ≤ index ∧ index < (st.chapters.length : Int) then
    .ok (save_progress
      { st with current_scroll_value :=
          scrollFor (st.chapters.get ⟨index.toNat, by omega⟩).position })
  else .error ()

/-- Claim C6 counterexample: at the concrete out-of-range index 5 on a
two-chapter session, the source's `jump_to_chapter` returns the session
state unchanged and signals nothing — a plain `None` return with no
exception — whereas the claimed behavior (spec model) reports an
out-of-range error to the caller. -/
theorem jump_to_chapter_no_report_cex :
    jump_to_chapter (fun _ => 0)
      { file_path := "novel.txt", current_scroll_value := 7,
        chapters := [{ title := "第一章 开端", position := 0, line_number := 0 },
                     { title := "第二章 风起", position := 12, line_number := 3 }],
        background_color := "transparent", font_color := "#E0E0E0",
        auto_font_color := true,
        config := { background_color := "transparent", font_color := "#E0E0E0",
                    reading_progress := fun _ => none },
        sidecar := none, saved_configs := [] } 5 =
      { file_path := "novel.txt", current_scroll_value := 7,
        chapters := [{ title := "第一章 开端", position := 0, line_number := 0 },
                     { title := "第二章 风起", position := 12, line_number := 3 }],
        background_color := "transparent", font_color := "#E0E0E0",
        auto_font_color := true,
        config := { background_color := "transparent", font_color := "#E0E0E0",
                    reading_progress := fun _ => none },
        sidecar := none, saved_configs := [] } ∧
    jumpToChapterSpec (fun _ => 0)
      { file_path := "novel.txt", current_scroll_value := 7,
        chapters := [{ title := "第一章 开端", position := 0, line_number := 0 },
                     { title := "第二章 风起", position := 12, line_number := 3 }],
        background_color := "transparent", font_color := "#E0E0E0",
        auto_font_color := true,
        config := { background_color := "transparent", font_color := "#E0E0E0",
                    reading_progress := fun _ => none },
        sidecar := none, saved_configs := [] } 5 = .error () := by
  constructor
  · rw [jump_to_chapter, dif_neg (by decide)]
  · rw [jumpToChapterSpec, dif_neg (by decide)]

/-- Claim C6 (amended): for every chapter index outside
`[0, len(chapters))`, `jump_to_chapter` silently ignores the request: no
session state (current offset, chapter list, persisted progress) is
mutated and no error is raised or returned to the caller. -/
theorem jump_to_chapter_out_of_range_noop (scrollFor : Nat → Int)
    (st : ReaderState) (index : Int)
    (h : ¬(0 ≤ index ∧ index < (st.chapters.length : Int))) :
    jump_to_chapter scrollFor st index = st := by
  rw [jump_to_chapter, dif_neg h]

/-- Witness for the amended C6 at concrete out-of-range indices 2 and -1
on a two-chapter session. -/
theorem jump_to_chapter_out_of_range_noop_witness :
    jump_to_chapter (fun _ => 0)
      { file_path := "novel.txt", current_scroll_value := 7,
        chapters := [{ title := "第一章 开端", position := 0, line_number := 0 },
                     { title := "第二章 风起", position := 12, line_number := 3 }],
        background_color := "transparent", font_color := "#E0E0E0",
        auto_font_color := true,
        config := { background_color := "transparent", font_color := "#E0E0E0",
                    reading_progress := fun _ => none },
        sidecar := none, saved_configs := [] } (-1) =
      { file_path := "novel.txt", current_scroll_value := 7,
        chapters := [{ title := "第一章 开端", position := 0, line_number := 0 },
                     { title := "第二章 风起", position := 12, line_number := 3 }],
        background_color := "transparent", font_color := "#E0E0E0",
        auto_font_color := true,
        config := { background_color := "transparent", font_color := "#E0E0E0",
                    reading_progress := fun _ => none },
        sidecar := none, saved_configs := [] } :=
  jump_to_chapter_out_of_range_noop (fun _ => 0) _ (-1) (by decide)

/-! ## Background color: `set_background_color` / `auto_adjust_font_color` -/

/-- Source `set_font_color(color, save)`: set the field and the config key, then
persist the config when `save` is true. -/
noncomputable def set_font_color (color : String) (save : Bool)
    (st : ReaderState) : ReaderState :=
  let st1 := { st with font_color := color,
                       config := { st.config with font_color := color } }
  if save then save_config st1 else st1

/-- Source `auto_adjust_font_color`: a no-op when the auto mode is off or the
background is the transparent sentinel; otherwise set the font color to
the contrast color of the background, without saving. -/
noncomputable def auto_adjust_font_color (st : ReaderState) : ReaderState :=
  if st.auto_font_color = false then st
  else if st.background_color ≠ "transparent" then
    set_font_color (get_contrast_color st.background_color) false st
  else st

/-- Source `set_background_color(color, save)`: set the field and the config key,
run the auto font-color adjustment when the auto mode is on, then persist
the config when `save` is true (the default). -/
noncomputable def set_background_color (color : String) (save : Bool)
    (st : ReaderState) : ReaderState :=
  let st1 := { st with background_color := color,
                       config := { st.config with background_color := color } }
  let st2 := if st1.auto_font_color then auto_adjust_font_color st1 else st1
  if save then save_config st2 else st2

/-- Claim C9 counterexample: with the auto-contrast mode enabled,
`set_background_color("transparent")` leaves the font color at its old
value `"#E0E0E0"` instead of recomputing it as the contrast color of the
transparent sentinel, which is `"#FFFFFF"`. -/
theorem set_background_color_transparent_cex :
    (set_background_color "transparent" true
      { file_path := "novel.txt", current_scroll_value := 0, chapters := [],
        background_color := "#FFFFFF", font_color := "#E0E0E0",
        auto_font_color := true,
        config := { background_color := "#FFFFFF", font_color := "#E0E0E0",
                    reading_progress := fun _ => none },
        sidecar := none, saved_configs := [] }).font_color = "#E0E0E0" ∧
    get_contrast_color "transparent" = "#FFFFFF" ∧
    ("#E0E0E0" : String) ≠ "#FFFFFF" := by
  refine ⟨?_, ?_, by decide⟩
  · rw [set_background_color]
    simp only [auto_adjust_font_color, save_config]
    norm_num
  · rw [get_contrast_color, calculate_luminance_transparent, if_neg (by norm_num)]

/-- Claim C9 (amended): with the auto-contrast mode enabled,
`set_background_color(color)` for every NON-transparent color recomputes
the font color as `get_contrast_color(color)` and persists the new
background color and the recomputed font color together in a single
configuration save; for the transparent sentinel the font color is left
unchanged, the new background still being persisted in a single save. -/
theorem set_background_color_auto_contrast (st : ReaderState) (color : String)
    (hauto : st.auto_font_color = true) :
    (color ≠ "transparent" →
      (set_background_color color true st).font_color =
          get_contrast_color color ∧
        (set_background_color color true st).config.font_color =
          get_contrast_color color ∧
        (set_background_color color true st).config.background_color = color ∧
        (set_background_color color true st).background_color = color) ∧
    (set_background_color color true st).saved_configs =
      (set_background_color color true st).config :: st.saved_configs ∧
    (color = "transparent" →
      (set_background_color color true st).font_color = st.font_color) := by
  refine ⟨?_, ?_, ?_⟩
  · intro hc
    simp [set_background_color, auto_adjust_font_color, set_font_color,
      save_config, hauto, hc]
  · by_cases hc : color = "transparent"
    · subst hc
      simp [set_background_color, auto_adjust_font_color, set_font_color,
        save_config, hauto]
    · simp [set_background_color, auto_adjust_font_color, set_font_color,
        save_config, hauto, hc]
  · intro hc
    subst hc
    simp [set_background_color, auto_adjust_font_color, set_font_color,
      save_config, hauto]

/-- Witness for the amended C9 at a concrete session and the concrete
color `"#123456"`: the font color becomes the contrast color and exactly
one config save records both values. -/
theorem set_background_color_auto_contrast_witness :
    (set_background_color "#123456" true
        { file_path := "novel.txt", current_scroll_value := 0, chapters := [],
          background_color := "transparent", font_color := "#E0E0E0",
          auto_font_color := true,
          config := { background_color := "transparent", font_color := "#E0E0E0",
                      reading_progress := fun _ => none },
          sidecar := none, saved_configs := [] }).font_color =
      get_contrast_color "#123456" ∧
    (set_background_color "#123456" true
        { file_path := "novel.txt", current_scroll_value := 0, chapters := [],
          background_color := "transparent", font_color := "#E0E0E0",
          auto_font_color := true,
          config := { background_color := "transparent", font_color := "#E0E0E0",
                      reading_progress := fun _ => none },
          sidecar := none, saved_configs := [] }).config.font_color =
      get_contrast_color "#123456" ∧
    (set_background_color "#123456" true
        { file_path := "novel.txt", current_scroll_value := 0, chapters := [],
          background_color := "transparent", font_color := "#E0E0E0",
          auto_font_color := true,
          config := { background_color := "transparent", font_color := "#E0E0E0",
                      reading_progress := fun _ => none },
          sidecar := none, saved_configs := [] }).saved_configs =
      (set_background_color "#123456" true
        { file_path := "novel.txt", current_scroll_value := 0, chapters := [],
          background_color := "transparent", font_color := "#E0E0E0",
          auto_font_color := true,
          config := { background_color := "transparent", font_color := "#E0E0E0",
                      reading_progress := fun _ => none },
          sidecar := none, saved_configs := [] }).config :: [] := by
  have h := set_background_color_auto_contrast
    { file_path := "novel.txt", current_scroll_value := 0, chapters := [],
      background_color := "transparent", font_color := "#E0E0E0",
      auto_font_color := true,
      config := { background_color := "transparent", font_color := "#E0E0E0",
                  reading_progress := fun _ => none },
      sidecar := none, saved_configs := [] } "#123456" rfl
  exact ⟨(h.1 (by decide)).1, (h.1 (by decide)).2.1, h.2.1⟩

end MoyuRead
